import Mathlib

/-!
Verification of the syncsh recipe-execution wrapper (src/syncsh.c).

The program is embedded shallowly as a function from an invocation
(`Config`: argv plus the SYNCSH_* environment) and an oracle of
OS-call outcomes (`Oracle`: regex compile/match results, lock-call
results, the child's raw wait status and captured output bytes) to the
ordered trace of externally visible events (`Event`) that one run of
`main` produces.  Every definition is transcribed from the C source;
comments cite the source lines.
-/

/-- One externally visible action of a run of syncsh `main`. -/
inductive Event where
  /-- `usage()` printed its message and called `exit(1)` (syncsh.c:83-97,199-201). -/
  | usageExit : Event
  /-- `execvp` replaced the process image with the shell (syncsh.c:230). -/
  | execShell : List String → Event
  /-- `syserr(2,...)` or `return 2`: fatal wrapper error with reserved code 2. -/
  | fatalExit : Nat → Event
  /-- the `bad regular expression` message from a failed `regcomp` (syncsh.c:260). -/
  | warnBadPattern : Event
  /-- the `not an absolute path` message for the tee file (syncsh.c:310). -/
  | teePathError : Event
  /-- `perror` after a failed `fcntl(F_SETLKW)` at this offset (syncsh.c:166). -/
  | lockFailMsg : Nat → Event
  /-- the byte-range lock at this offset was acquired (syncsh.c:162). -/
  | acquireLock : Nat → Event
  /-- the byte-range lock at this offset was released (syncsh.c:170-178). -/
  | releaseLock : Nat → Event
  /-- `vfork` spawned the child; the flag records whether its stdout/stderr
      were redirected into capture tempfiles (syncsh.c:283-295). -/
  | spawnChild : Bool → Event
  /-- `waitpid` returned this raw status (syncsh.c:300). -/
  | waitChild : Nat → Event
  /-- these bytes were written to the real stdout. -/
  | outWrite : List Nat → Event
  /-- these bytes were written to the real stderr. -/
  | errWrite : List Nat → Event
  /-- these bytes were written to the tee file descriptor. -/
  | teeWrite : List Nat → Event
  /-- the `vb` echo of the recipe (syncsh.c:247-248); recorded abstractly: the
      source passes `fileno(temperr)` while `temperr` is still NULL there,
      a latent fault in the C, so no real descriptor receives these bytes. -/
  | vbDebug : List Nat → Event
  /-- `main` returned this value, the process exit code (syncsh.c:358). -/
  | exitCode : Nat → Event
  deriving DecidableEq, Repr

/-- The invocation: argv (index 0 is the program name) and the
    environment variables the program reads (syncsh.c:199-255,308,325). -/
structure Config where
  argv : List String
  makelevel : Option String
  shellEnv : Option String
  serialize : Option String
  headline : Option String
  tee : Option String
  verbose : Option String
  deriving DecidableEq, Repr

/-- Outcomes of the OS and library calls one run performs.  Regex matching is
    outside the core (spec section 1): the program only consumes the
    compile-ok and match booleans.  Each lock field is the outcome of one
    `fcntl(F_SETLKW)` call site. -/
structure Oracle where
  /-- `regcomp` of the SYNCSH_SERIALIZE pattern succeeded (syncsh.c:258). -/
  regcompOk : Bool
  /-- `regexec` matched the pattern against the recipe (syncsh.c:265). -/
  regMatch : Bool
  /-- the serialize-path lock acquisition succeeded (syncsh.c:269). -/
  lockSer : Bool
  /-- the publication lock acquisition at offset 0 succeeded (syncsh.c:317). -/
  lockPub : Bool
  /-- both `tmpfile()` calls succeeded (syncsh.c:277). -/
  tmpfilesOk : Bool
  /-- `vfork` succeeded (syncsh.c:283). -/
  vforkOk : Bool
  /-- rewinding the stdout capture succeeded (syncsh.c:302). -/
  lseekOutOk : Bool
  /-- rewinding the stderr capture succeeded (syncsh.c:305). -/
  lseekErrOk : Bool
  /-- `open` of the tee file returned a descriptor greater than 0 (syncsh.c:314,330). -/
  teeOpenPos : Bool
  /-- `execvp` in the pass-through path succeeded (syncsh.c:230). -/
  execOk : Bool
  /-- the raw wait status `waitpid` stored (syncsh.c:300). -/
  rawStatus : Nat
  /-- the bytes the child wrote to its (captured) stdout. -/
  childOut : List Nat
  /-- the bytes the child wrote to its (captured) stderr. -/
  childErr : List Nat
  deriving DecidableEq, Repr

/-- Byte list of a string (ASCII view of the C `char *`). -/
def strBytes (s : String) : List Nat := s.toList.map Char.toNat

/-- `argv[n]`, or the empty string when absent (C code only dereferences
    entries whose existence the short-circuit guards established). -/
def argN (cfg : Config) (n : Nat) : String :=
  match cfg.argv.get? n with
  | some s => s
  | none => ""

/-- `recipe = argv[2]` (syncsh.c:205). -/
def recipeOf (cfg : Config) : String := argN cfg 2

/-- The shell: `getenv("SYNCSH_SHELL")` with default `/bin/sh` (syncsh.c:209-210). -/
def shellPath (cfg : Config) : String :=
  match cfg.shellEnv with
  | some s => s
  | none => "/bin/sh"

/-- `is_absolute(path)`: first byte is a slash (syncsh.c:45). -/
def isAbsolute (p : String) : Bool := p.toList.head? == some '/'

/-- Char-list substring test, the embedding of `strstr` (syncsh.c:199). -/
def takeEq : List Char → List Char → Bool
  | [], _ => true
  | _ :: _, [] => false
  | a :: as, b :: bs => a == b && takeEq as bs

/-- `strstr(hay, needle) != NULL`: some suffix of `hay` starts with `needle`. -/
def hasSubstr (needle : List Char) : List Char → Bool
  | [] => needle.isEmpty
  | c :: t => takeEq needle (c :: t) || hasSubstr needle t

/-- The signed value of a byte, as a C `char` holds it (chars are signed on
    the platforms this program targets). -/
def signedChar (c : Nat) : Int :=
  if c % 256 < 128 then ((c % 256 : Nat) : Int) else ((c % 256 : Nat) : Int) - 256

/-- One iteration of the loop body of `str_hash` (syncsh.c:117):
    `hash = (*str) + (hash << 6) + (hash << 16) - hash` with `hash` a
    `uint16_t`, so the int-arithmetic result is reduced mod 2^16. -/
def str_hash_step (h : Nat) (c : Nat) : Nat :=
  ((signedChar c + (h : Int) * 64 + (h : Int) * 65536 - (h : Int)) % 65536).toNat

/-- The accumulation loop of `str_hash` (syncsh.c:116-118). -/
def str_hash_fold : List Nat → Nat → Nat
  | [], h => h
  | c :: cs, h => str_hash_fold cs (str_hash_step h c)

/-- `str_hash(str, strlen(str))` (syncsh.c:110-121): fold over the bytes,
    then `return hash >> 1`. -/
def str_hash (s : String) : Nat := str_hash_fold (strBytes s) 0 >>> 1

/-- The bytes `vb` writes (syncsh.c:100-108): each argument followed by a
    space, the last by a newline. -/
def vbArgsBytes : List String → List Nat
  | [] => []
  | [a] => strBytes a ++ [10]
  | a :: rest => strBytes a ++ [32] ++ vbArgsBytes rest

/-- The full `vb` output: the literal verbose value, then the arguments. -/
def vbBytes (v : String) (args : List String) : List Nat :=
  strBytes v ++ vbArgsBytes args

/-- `WIFEXITED(status)`: low seven bits zero means the child exited
    normally; otherwise it was terminated by the signal in those bits
    (POSIX `sys/wait.h`, consumed at syncsh.c:300,358). -/
def exitedNormally (s : Nat) : Bool := s % 128 == 0

/-- `return status >> 8` from `main` (syncsh.c:358), masked to the eight
    bits the OS keeps of a process exit code. -/
def normStatus (s : Nat) : Nat := (s >>> 8) % 256

/-- The usage guard (syncsh.c:199-201): no argument, literal `-h`, or any
    argument-1 containing `help` prints usage and exits 1. -/
def usageWanted (cfg : Config) : Bool :=
  cfg.argv.length ≤ 1 || argN cfg 1 == "-h" || hasSubstr ("help").toList (argN cfg 1).toList

/-- The pass-through guard (syncsh.c:223-224): `argc != 3 ||
    argv[1][0] != '-' || !strchr(argv[1],'c') || argv[2][0] == '-' ||
    !getenv("MAKELEVEL")`. -/
def passThrough (cfg : Config) : Bool :=
  cfg.argv.length != 3
  || !((argN cfg 1).toList.head? == some '-')
  || !((argN cfg 1).toList.contains 'c')
  || ((argN cfg 2).toList.head? == some '-')
  || cfg.makelevel.isNone

/-- A run that reaches the synchronization machinery: neither the usage
    guard nor the pass-through guard fired. -/
def synchronized (cfg : Config) : Bool := !usageWanted cfg && !passThrough cfg

/-- The pass-through branch (syncsh.c:225-232): optional verbose echo to
    stderr, then `execvp` of the shell on the original argv with `argv[0]`
    replaced by the shell path; on exec failure, `syserr(2, argv[0])`. -/
def passEvents (cfg : Config) (o : Oracle) : List Event :=
  (match cfg.verbose with
   | some v => [Event.errWrite (vbBytes v (shellPath cfg :: cfg.argv.drop 1))]
   | none => []) ++
  (if o.execOk then [Event.execShell (shellPath cfg :: cfg.argv.drop 1)]
   else [Event.fatalExit 2])

/-- The verbose echo in the synchronized path (syncsh.c:247-248):
    `vb(fileno(temperr), verbose, shargv + 2)`, i.e. the recipe alone. -/
def vbSyncEvents (cfg : Config) : List Event :=
  match cfg.verbose with
  | some v => [Event.vbDebug (vbBytes v [recipeOf cfg])]
  | none => []

/-- Whether the run is classified SERIALIZE (syncsh.c:255-270): a
    SYNCSH_SERIALIZE pattern is set, compiles, and matches the recipe. -/
def serClassified (cfg : Config) (o : Oracle) : Bool :=
  match cfg.serialize with
  | some _ => o.regcompOk && o.regMatch
  | none => false

/-- The serialize lock offset: the hash of the raw pattern string
    (syncsh.c:268), 0 when no pattern is configured. -/
def serOffset (cfg : Config) : Nat :=
  match cfg.serialize with
  | some pat => str_hash pat
  | none => 0

/-- Events of the classification block (syncsh.c:255-273): warn on a bad
    pattern; on a match, attempt the serialize-class lock at the hash
    of the pattern string. -/
def classifyEvents (cfg : Config) (o : Oracle) : List Event :=
  match cfg.serialize with
  | none => []
  | some pat =>
    if !o.regcompOk then [Event.warnBadPattern]
    else if o.regMatch then
      (if o.lockSer then [Event.acquireLock (str_hash pat)]
       else [Event.lockFailMsg (str_hash pat)])
    else []

/-- The semaphore held after the classification block: the pattern hash
    when the pattern matched and the lock call succeeded, else none
    (`sem` at syncsh.c:269, NULL otherwise). -/
def semAfterClassify (cfg : Config) (o : Oracle) : Option Nat :=
  match cfg.serialize with
  | none => none
  | some pat =>
    if o.regcompOk && o.regMatch && o.lockSer then some (str_hash pat) else none

/-- `teefd > 0` (syncsh.c:308-315,330): a tee path is configured, absolute,
    and `open` returned a positive descriptor. -/
def teeOk (cfg : Config) (o : Oracle) : Bool :=
  match cfg.tee with
  | some t => isAbsolute t && o.teeOpenPos
  | none => false

/-- The tee path is acceptable (absent, or an absolute path), so the run
    does not take the `return 2` branch at syncsh.c:309-313. -/
def teePathOk (cfg : Config) : Bool :=
  match cfg.tee with
  | some t => isAbsolute t
  | none => true

/-- The headline writes to the real stdout (syncsh.c:325-328): the
    SYNCSH_HEADLINE string, then a newline, two `write` calls. -/
def headlineEvents (cfg : Config) : List Event :=
  match cfg.headline with
  | some hl => [Event.outWrite (strBytes hl), Event.outWrite [10]]
  | none => []

/-- The headline copy to the tee descriptor (syncsh.c:330-336). -/
def headlineTeeEvents (cfg : Config) : List Event :=
  match cfg.headline with
  | some hl => [Event.teeWrite (strBytes hl), Event.teeWrite [10]]
  | none => []

/-- The critical-section emitter body (syncsh.c:325-349), entered only on
    the publish path after the offset-0 lock is held: headline to stdout,
    headline to tee, `pump_from_tmp_fd` of the stdout capture to stdout and
    to tee, then of the stderr capture to stderr and to tee.  Each pump
    rewinds and copies the whole capture, so it is one event carrying the
    full byte content. -/
def emitterEvents (cfg : Config) (o : Oracle) : List Event :=
  headlineEvents cfg
  ++ (if teeOk cfg o then headlineTeeEvents cfg else [])
  ++ ([Event.outWrite o.childOut]
      ++ (if teeOk cfg o then [Event.teeWrite o.childOut] else []))
  ++ ([Event.errWrite o.childErr]
      ++ (if teeOk cfg o then [Event.teeWrite o.childErr] else []))

/-- From syncsh.c:317-358: when no semaphore is held, acquire the
    publication lock at offset 0 and run the emitter, then release; when
    the serialize semaphore is held, just release it; in every case
    `return status >> 8`.  A failed publication-lock call only gets a
    `perror` and publication is skipped (acquire_semaphore, syncsh.c:166). -/
def finishEvents (cfg : Config) (o : Oracle) : List Event :=
  (match semAfterClassify cfg o with
   | some h => [Event.releaseLock h]
   | none =>
     if o.lockPub then
       Event.acquireLock 0 :: emitterEvents cfg o ++ [Event.releaseLock 0]
     else [Event.lockFailMsg 0])
  ++ [Event.exitCode (normStatus o.rawStatus)]

/-- The synchronized path of `main` (syncsh.c:234-358): verbose echo,
    classification (possibly taking the serialize lock), tempfile creation
    when no semaphore is held, vfork and wait, capture rewinds, the tee
    path check, and the publication/finish block. -/
def syncBody (cfg : Config) (o : Oracle) : List Event :=
  let pre := vbSyncEvents cfg ++ classifyEvents cfg o
  let sem := semAfterClassify cfg o
  if sem.isNone && !o.tmpfilesOk then pre ++ [Event.fatalExit 2]
  else if !o.vforkOk then pre ++ [Event.fatalExit 2]
  else
    let afterRun : List Event → List Event := fun rest =>
      pre ++ Event.spawnChild sem.isNone :: Event.waitChild o.rawStatus :: rest
    if sem.isNone && !o.lseekOutOk then afterRun [Event.fatalExit 2]
    else if sem.isNone && !o.lseekErrOk then afterRun [Event.fatalExit 2]
    else
      match cfg.tee with
      | some t =>
        if !isAbsolute t then afterRun [Event.teePathError, Event.fatalExit 2]
        else afterRun (finishEvents cfg o)
      | none => afterRun (finishEvents cfg o)

/-- One run of `main` (syncsh.c:180-359): usage guard, pass-through guard,
    else the synchronized path. -/
def syncshRun (cfg : Config) (o : Oracle) : List Event :=
  if usageWanted cfg then [Event.usageExit]
  else if passThrough cfg then passEvents cfg o
  else syncBody cfg o

/-- Event classifiers used to state trace properties. -/
def isAcquire : Event → Bool
  | Event.acquireLock _ => true
  | _ => false

def isRelease : Event → Bool
  | Event.releaseLock _ => true
  | _ => false

def isSpawn : Event → Bool
  | Event.spawnChild _ => true
  | _ => false

def isWait : Event → Bool
  | Event.waitChild _ => true
  | _ => false

def isOutWrite : Event → Bool
  | Event.outWrite _ => true
  | _ => false

def isErrWrite : Event → Bool
  | Event.errWrite _ => true
  | _ => false

def isTeeWrite : Event → Bool
  | Event.teeWrite _ => true
  | _ => false

def isFatal : Event → Bool
  | Event.fatalExit _ => true
  | _ => false

def isExec : Event → Bool
  | Event.execShell _ => true
  | _ => false

/-- `noneBefore p s t`: scanning `t` left to right, no `p`-event occurs
    strictly before the first `s`-event (true as well when neither occurs). -/
def noneBefore (p s : Event → Bool) : List Event → Bool
  | [] => true
  | e :: t => if s e then true else if p e then false else noneBefore p s t

/-- The exit code carried by the final event of a trace, when the trace
    ends in a normal return from `main`. -/
def finalExit (t : List Event) : Option Nat :=
  match t.getLast? with
  | some (Event.exitCode n) => some n
  | _ => none

/-- `isOutOf bs`: the event is a write of exactly `bs` to the real stdout. -/
def isOutOf (bs : List Nat) (e : Event) : Bool := decide (e = Event.outWrite bs)

/-- `isTeeOf bs`: the event is a write of exactly `bs` to the tee file. -/
def isTeeOf (bs : List Nat) (e : Event) : Bool := decide (e = Event.teeWrite bs)

/-! ### Concrete invocations used to instantiate the theorems -/

/-- A plain recipe invocation with no SYNCSH_* configuration. -/
def cfgPub : Config :=
  { argv := ["syncsh", "-c", "echo hi"], makelevel := some ("1"), shellEnv := none,
    serialize := none, headline := none, tee := none, verbose := none }

/-- An all-calls-succeed oracle; the child exits 42 (raw status `42 << 8`)
    after writing `A\n` to stdout and `B\n` to stderr. -/
def oPub : Oracle :=
  { regcompOk := true, regMatch := true, lockSer := true, lockPub := true,
    tmpfilesOk := true, vforkOk := true, lseekOutOk := true, lseekErrOk := true,
    teeOpenPos := false, execOk := true, rawStatus := 10752,
    childOut := [65, 10], childErr := [66, 10] }

/-- A recipe invocation with a SERIALIZE pattern that matches the recipe,
    and a headline configured. -/
def cfgSer : Config :=
  { argv := ["syncsh", "-c", "echo D1"], makelevel := some ("1"), shellEnv := none,
    serialize := some ("D"), headline := some ("H"), tee := none, verbose := none }

/-- Like `cfgSer` but with the empty pattern, which matches every recipe. -/
def cfgSerEmpty : Config :=
  { cfgSer with serialize := some (""), headline := none }

/-- Oracle for a child that was killed by signal 9 (raw wait status 9,
    low seven bits = the terminating signal, high byte 0). -/
def oSig : Oracle := { oPub with rawStatus := 9 }

/-- Oracle for a run in which the publication-lock `fcntl` call fails. -/
def oNoLock : Oracle := { oPub with lockPub := false }

/-- An invocation with no arguments at all (argc = 1). -/
def cfgNoArgs : Config := { cfgPub with argv := ["syncsh"] }

/-- A shell invocation outside any recipe: MAKELEVEL is absent. -/
def cfgNoMake : Config := { cfgPub with makelevel := none }

/-- A publish run with a tee sink and a headline configured. -/
def cfgTee : Config :=
  { cfgPub with tee := some ("/tmp/out.log"), headline := some ("H") }

/-- Oracle like `oPub` but with the tee `open` returning a usable fd. -/
def oTee : Oracle := { oPub with teeOpenPos := true }

/-! ### Helper lemmas on traces -/

theorem noneBefore_of_none (p s : Event → Bool) (t : List Event)
    (h : t.all (fun e => !p e) = true) : noneBefore p s t = true := by
  induction t with
  | nil => rfl
  | cons e t ih =>
    simp only [List.all_cons, Bool.and_eq_true, Bool.not_eq_true'] at h
    unfold noneBefore
    cases hse : s e
    · simp [h.1, ih h.2]
    · simp

theorem noneBefore_clean_append (p s : Event → Bool) (a b : List Event)
    (ha : a.all (fun e => !p e) = true) (hb : noneBefore p s b = true) :
    noneBefore p s (a ++ b) = true := by
  induction a with
  | nil => simpa using hb
  | cons e t ih =>
    simp only [List.all_cons, Bool.and_eq_true, Bool.not_eq_true'] at ha
    rw [List.cons_append]
    unfold noneBefore
    cases hse : s e
    · simp [ha.1, ih ha.2]
    · simp

theorem noneBefore_stop (p s : Event → Bool) (e : Event) (b : List Event)
    (he : s e = true) : noneBefore p s (e :: b) = true := by
  unfold noneBefore
  simp [he]

theorem noneBefore_split (p s : Event → Bool) (a : List Event) (e : Event) (b : List Event)
    (ha : a.all (fun e => !p e) = true) (he : s e = true) :
    noneBefore p s (a ++ e :: b) = true :=
  noneBefore_clean_append p s a (e :: b) ha (noneBefore_stop p s e b he)

theorem finalExit_append (a : List Event) (e : Event) (t : List Event) :
    finalExit (a ++ e :: t) = finalExit (e :: t) := by
  unfold finalExit
  rw [List.getLast?_append_cons]

theorem finalExit_exitCode (a : List Event) (n : Nat) :
    finalExit (a ++ [Event.exitCode n]) = some n := by
  unfold finalExit
  rw [List.getLast?_concat]

/-! ### Per-segment facts -/

theorem vbSync_all (cfg : Config) (p : Event → Bool)
    (h : ∀ b, p (Event.vbDebug b) = true) : (vbSyncEvents cfg).all p = true := by
  unfold vbSyncEvents
  cases cfg.verbose <;> simp [h]

theorem classify_all (cfg : Config) (o : Oracle) (p : Event → Bool)
    (hw : p Event.warnBadPattern = true)
    (hl : ∀ n, p (Event.lockFailMsg n) = true)
    (ha : ∀ n, p (Event.acquireLock n) = true) :
    (classifyEvents cfg o).all p = true := by
  unfold classifyEvents
  cases cfg.serialize with
  | none => rfl
  | some pat =>
    cases o.regcompOk <;> cases o.regMatch <;> cases o.lockSer <;> simp [hw, hl, ha]

theorem classify_no_acquire (cfg : Config) (o : Oracle)
    (hcond : (serClassified cfg o && o.lockSer) = false) :
    (classifyEvents cfg o).all (fun e => !isAcquire e) = true := by
  unfold classifyEvents
  cases hser : cfg.serialize with
  | none => rfl
  | some pat =>
    simp only [serClassified, hser] at hcond
    cases hc : o.regcompOk <;> cases hm : o.regMatch <;> cases hl : o.lockSer <;>
      rw [hc, hm, hl] at hcond <;> simp_all [isAcquire]

theorem sem_none (cfg : Config) (o : Oracle)
    (h : (serClassified cfg o && o.lockSer) = false) :
    semAfterClassify cfg o = none := by
  unfold semAfterClassify
  cases hser : cfg.serialize with
  | none => rfl
  | some pat =>
    simp only [serClassified, hser] at h
    cases hc : o.regcompOk <;> cases hm : o.regMatch <;> cases hl : o.lockSer <;>
      rw [hc, hm, hl] at h <;> simp_all

theorem sem_some (cfg : Config) (o : Oracle) (pat : String)
    (hser : cfg.serialize = some pat)
    (h1 : serClassified cfg o = true) (h2 : o.lockSer = true) :
    semAfterClassify cfg o = some (str_hash pat) := by
  simp only [serClassified, hser] at h1
  simp [semAfterClassify, hser, h1, h2]

theorem classify_ser (cfg : Config) (o : Oracle) (pat : String)
    (hser : cfg.serialize = some pat)
    (h1 : serClassified cfg o = true) (h2 : o.lockSer = true) :
    classifyEvents cfg o = [Event.acquireLock (str_hash pat)] := by
  simp only [serClassified, hser, Bool.and_eq_true] at h1
  simp [classifyEvents, hser, h1.1, h1.2, h2]

theorem run_sync (cfg : Config) (o : Oracle) (h : synchronized cfg = true) :
    syncshRun cfg o = syncBody cfg o := by
  unfold synchronized at h
  rw [Bool.and_eq_true, Bool.not_eq_true', Bool.not_eq_true'] at h
  unfold syncshRun
  rw [h.1, h.2]
  simp

/-! ### Trace-shape lemmas -/

theorem syncBody_pub_shape (cfg : Config) (o : Oracle)
    (hsem : semAfterClassify cfg o = none) :
    syncBody cfg o = (vbSyncEvents cfg ++ classifyEvents cfg o) ++ [Event.fatalExit 2]
    ∨ ∃ rest, syncBody cfg o = (vbSyncEvents cfg ++ classifyEvents cfg o)
        ++ Event.spawnChild true :: Event.waitChild o.rawStatus :: rest := by
  unfold syncBody
  rw [hsem]
  cases ht : o.tmpfilesOk <;> cases hv : o.vforkOk <;>
    cases hlo : o.lseekOutOk <;> cases hle : o.lseekErrOk <;>
    cases htee : cfg.tee <;>
    simp [ht, hv, hlo, hle, htee]
  all_goals
    rename_i t
    cases habs : isAbsolute t <;> simp [habs]

theorem syncBody_ser_shape (cfg : Config) (o : Oracle) (pat : String)
    (hser : cfg.serialize = some pat)
    (h1 : serClassified cfg o = true) (h2 : o.lockSer = true) :
    syncBody cfg o
      = (vbSyncEvents cfg ++ [Event.acquireLock (str_hash pat)]) ++ [Event.fatalExit 2]
    ∨ syncBody cfg o
      = (vbSyncEvents cfg ++ [Event.acquireLock (str_hash pat)])
        ++ [Event.spawnChild false, Event.waitChild o.rawStatus,
            Event.teePathError, Event.fatalExit 2]
    ∨ syncBody cfg o
      = (vbSyncEvents cfg ++ [Event.acquireLock (str_hash pat)])
        ++ [Event.spawnChild false, Event.waitChild o.rawStatus,
            Event.releaseLock (str_hash pat), Event.exitCode (normStatus o.rawStatus)] := by
  have hs := sem_some cfg o pat hser h1 h2
  have hc := classify_ser cfg o pat hser h1 h2
  unfold syncBody finishEvents
  rw [hs, hc]
  cases hv : o.vforkOk <;> cases htee : cfg.tee <;> simp [hv, htee]

theorem syncBody_pub_full (cfg : Config) (o : Oracle)
    (hsem : semAfterClassify cfg o = none)
    (ht : o.tmpfilesOk = true) (hv : o.vforkOk = true)
    (hlo : o.lseekOutOk = true) (hle : o.lseekErrOk = true)
    (htp : teePathOk cfg = true) :
    syncBody cfg o = (vbSyncEvents cfg ++ classifyEvents cfg o)
      ++ Event.spawnChild true :: Event.waitChild o.rawStatus :: finishEvents cfg o := by
  unfold syncBody
  rw [hsem]
  cases htee : cfg.tee with
  | none => simp [ht, hv, hlo, hle]
  | some t =>
    have habs : isAbsolute t = true := by
      unfold teePathOk at htp
      rw [htee] at htp
      exact htp
    simp [ht, hv, hlo, hle, habs]

theorem headline_all (cfg : Config) (p : Event → Bool)
    (h : ∀ b, p (Event.outWrite b) = true) : (headlineEvents cfg).all p = true := by
  unfold headlineEvents
  cases cfg.headline <;> simp [h]

theorem headlineTee_all (cfg : Config) (p : Event → Bool)
    (h : ∀ b, p (Event.teeWrite b) = true) : (headlineTeeEvents cfg).all p = true := by
  unfold headlineTeeEvents
  cases cfg.headline <;> simp [h]

theorem finishEvents_pub (cfg : Config) (o : Oracle)
    (hsem : semAfterClassify cfg o = none) (hlp : o.lockPub = true) :
    finishEvents cfg o
      = Event.acquireLock 0
        :: (emitterEvents cfg o ++ [Event.releaseLock 0]) ++ [Event.exitCode (normStatus o.rawStatus)] := by
  unfold finishEvents
  rw [hsem, hlp]
  simp

/-- The full trace of a publish run that reaches the critical section, in
    right-nested cons form. -/
theorem pub_critical_trace (cfg : Config) (o : Oracle)
    (hsync : synchronized cfg = true)
    (hsem : semAfterClassify cfg o = none)
    (ht : o.tmpfilesOk = true) (hv : o.vforkOk = true)
    (hlo : o.lseekOutOk = true) (hle : o.lseekErrOk = true)
    (htp : teePathOk cfg = true) (hlp : o.lockPub = true) :
    syncshRun cfg o = (vbSyncEvents cfg ++ classifyEvents cfg o)
      ++ Event.spawnChild true :: Event.waitChild o.rawStatus :: Event.acquireLock 0
      :: (headlineEvents cfg
          ++ ((if teeOk cfg o then headlineTeeEvents cfg else [])
              ++ Event.outWrite o.childOut
              :: ((if teeOk cfg o then [Event.teeWrite o.childOut] else [])
                  ++ Event.errWrite o.childErr
                  :: ((if teeOk cfg o then [Event.teeWrite o.childErr] else [])
                      ++ [Event.releaseLock 0, Event.exitCode (normStatus o.rawStatus)])))) := by
  rw [run_sync cfg o hsync, syncBody_pub_full cfg o hsem ht hv hlo hle htp,
      finishEvents_pub cfg o hsem hlp]
  unfold emitterEvents
  simp [List.append_assoc]

/-! ### Claim theorems -/

/-- C1: in every synchronized run classified PUBLISH-ONLY, any lock
acquisition happens only after the child has been spawned and after the
wait for it has completed (the lock never blocks the already-running
child); in every synchronized run classified SERIALIZE whose class-lock
`fcntl` call succeeds (the call blocks rather than fails in normal
operation), a lock acquisition occurs, no spawn precedes the first
acquisition, and no release precedes the wait. -/
theorem syncsh_c1 (cfg : Config) (o : Oracle) :
    (synchronized cfg = true → serClassified cfg o = false →
      noneBefore isAcquire isSpawn (syncshRun cfg o) = true
      ∧ noneBefore isAcquire isWait (syncshRun cfg o) = true)
    ∧ (synchronized cfg = true → serClassified cfg o = true → o.lockSer = true →
      (syncshRun cfg o).any isAcquire = true
      ∧ noneBefore isSpawn isAcquire (syncshRun cfg o) = true
      ∧ noneBefore isRelease isWait (syncshRun cfg o) = true) := by
  constructor
  · intro hsync hcls
    rw [run_sync cfg o hsync]
    have hsem : semAfterClassify cfg o = none := sem_none cfg o (by rw [hcls]; rfl)
    have hpre : (vbSyncEvents cfg ++ classifyEvents cfg o).all (fun e => !isAcquire e) = true := by
      rw [List.all_append, vbSync_all cfg _ (fun b => rfl),
          classify_no_acquire cfg o (by rw [hcls]; rfl)]
      rfl
    rcases syncBody_pub_shape cfg o hsem with h | ⟨rest, h⟩ <;> rw [h] <;>
      constructor <;>
      refine noneBefore_clean_append _ _ _ _ hpre ?_ <;>
      simp [noneBefore, isAcquire, isSpawn, isWait]
  · intro hsync hcls hls
    rw [run_sync cfg o hsync]
    obtain ⟨pat, hser⟩ : ∃ pat, cfg.serialize = some pat := by
      unfold serClassified at hcls
      cases hs : cfg.serialize
      · rw [hs] at hcls
        exact absurd hcls (by simp)
      · exact ⟨_, rfl⟩
    have hvbS : (vbSyncEvents cfg).all (fun e => !isSpawn e) = true :=
      vbSync_all cfg _ (fun b => rfl)
    have hvbR : (vbSyncEvents cfg).all (fun e => !isRelease e) = true :=
      vbSync_all cfg _ (fun b => rfl)
    rcases syncBody_ser_shape cfg o pat hser hcls hls with h | h | h <;>
      rw [h, List.append_assoc] <;>
      refine ⟨?_, ?_, ?_⟩ <;>
      first
      | (simp [List.any_append, isAcquire]
         done)
      | (refine noneBefore_clean_append _ _ _ _ hvbS ?_
         simp [noneBefore, isAcquire, isSpawn, isWait, isRelease]
         done)
      | (refine noneBefore_clean_append _ _ _ _ hvbR ?_
         simp [noneBefore, isAcquire, isSpawn, isWait, isRelease]
         done)

/-- C1 witness: at the concrete publish run, the hypotheses hold and the
publication lock is acquired only after the wait. -/
theorem syncsh_c1_witness :
    (synchronized cfgPub = true ∧ serClassified cfgPub oPub = false)
    ∧ noneBefore isAcquire isWait (syncshRun cfgPub oPub) = true :=
  ⟨⟨by decide, by decide⟩, ((syncsh_c1 cfgPub oPub).1 (by decide) (by decide)).2⟩

theorem sem_some_inv (cfg : Config) (o : Oracle) (h : Nat)
    (hs : semAfterClassify cfg o = some h) :
    ∃ pat, cfg.serialize = some pat ∧ serClassified cfg o = true ∧ o.lockSer = true
      ∧ h = str_hash pat := by
  unfold semAfterClassify at hs
  cases hser : cfg.serialize with
  | none =>
    rw [hser] at hs
    exact absurd hs (by simp)
  | some pat =>
    rw [hser] at hs
    have hs' : (if (o.regcompOk && o.regMatch && o.lockSer) = true
        then some (str_hash pat) else none) = some h := hs
    by_cases hcond : (o.regcompOk && o.regMatch && o.lockSer) = true
    · rw [if_pos hcond] at hs'
      simp only [Bool.and_eq_true] at hcond
      obtain ⟨⟨hc, hm⟩, hl⟩ := hcond
      refine ⟨pat, rfl, ?_, hl, (Option.some.inj hs').symm⟩
      unfold serClassified
      rw [hser]
      simp [hc, hm]
    · rw [if_neg hcond] at hs'
      exact absurd hs' (by simp)

theorem syncBody_ser_full (cfg : Config) (o : Oracle) (pat : String)
    (hser : cfg.serialize = some pat)
    (h1 : serClassified cfg o = true) (h2 : o.lockSer = true)
    (hv : o.vforkOk = true) (htp : teePathOk cfg = true) :
    syncBody cfg o = vbSyncEvents cfg
      ++ Event.acquireLock (str_hash pat)
      :: Event.spawnChild false :: Event.waitChild o.rawStatus
      :: [Event.releaseLock (str_hash pat), Event.exitCode (normStatus o.rawStatus)] := by
  have hs := sem_some cfg o pat hser h1 h2
  have hc := classify_ser cfg o pat hser h1 h2
  unfold syncBody finishEvents
  rw [hs, hc]
  cases htee : cfg.tee with
  | none => simp [hv]
  | some t =>
    have habs : isAbsolute t = true := by
      unfold teePathOk at htp
      rw [htee] at htp
      exact htp
    simp [hv, habs]

theorem finalExit_finish (cfg : Config) (o : Oracle) (a : List Event) :
    finalExit (a ++ finishEvents cfg o) = some (normStatus o.rawStatus) := by
  unfold finishEvents
  rw [← List.append_assoc]
  exact finalExit_exitCode _ _

/-- C2 counterexample: in this synchronized run the child is terminated by
signal 9 (raw wait status 9: abnormal termination, low seven bits non-zero),
yet the wrapper exits with code 0 — not with a non-zero code distinct from
the codes a normally-exiting child can produce. -/
theorem syncsh_c2_cex :
    exitedNormally oSig.rawStatus = false
    ∧ synchronized cfgPub = true
    ∧ finalExit (syncshRun cfgPub oSig) = some 0 := by decide

/-- C2 amended: for every synchronized run in which the wrapper itself hits
no internal fatal error, the exit code is the child's raw wait status
shifted right eight bits and masked to 0-255 — so a child killed by a
signal (high status byte 0) makes the wrapper exit 0, indistinguishable
from success rather than a distinct non-zero code. -/
theorem syncsh_c2_amended (cfg : Config) (o : Oracle)
    (hsync : synchronized cfg = true)
    (ht : o.tmpfilesOk = true) (hv : o.vforkOk = true)
    (hlo : o.lseekOutOk = true) (hle : o.lseekErrOk = true)
    (htp : teePathOk cfg = true) :
    finalExit (syncshRun cfg o) = some (normStatus o.rawStatus) := by
  rw [run_sync cfg o hsync]
  cases hsem : semAfterClassify cfg o with
  | none =>
    rw [syncBody_pub_full cfg o hsem ht hv hlo hle htp]
    simpa using finalExit_finish cfg o
      ((vbSyncEvents cfg ++ classifyEvents cfg o)
        ++ [Event.spawnChild true, Event.waitChild o.rawStatus])
  | some hval =>
    obtain ⟨pat, hser, h1, h2, rfl⟩ := sem_some_inv cfg o hval hsem
    rw [syncBody_ser_full cfg o pat hser h1 h2 hv htp]
    simpa using finalExit_exitCode
      (vbSyncEvents cfg ++ [Event.acquireLock (str_hash pat), Event.spawnChild false,
        Event.waitChild o.rawStatus, Event.releaseLock (str_hash pat)])
      (normStatus o.rawStatus)

/-- C2 amended witness at the concrete publish run (child exited 42). -/
theorem syncsh_c2_amended_witness :
    synchronized cfgPub = true
    ∧ finalExit (syncshRun cfgPub oPub) = some (normStatus oPub.rawStatus) :=
  ⟨by decide, syncsh_c2_amended cfgPub oPub (by decide) (by decide) (by decide)
    (by decide) (by decide) (by decide)⟩

/-- C3 counterexample: in this synchronized run the publication-lock
`fcntl` call fails, yet the run is not fatal: no reserved-code exit
occurs, publication is skipped, and the process exits with the child's
own code 42 instead of the reserved internal-error code 2. -/
theorem syncsh_c3_cex :
    oNoLock.lockPub = false
    ∧ synchronized cfgPub = true
    ∧ (syncshRun cfgPub oNoLock).all (fun e => !isFatal e) = true
    ∧ finalExit (syncshRun cfgPub oNoLock) = some 42
    ∧ normStatus oNoLock.rawStatus = 42 := by decide

/-- C3 amended: when the publication-lock acquisition fails in a
synchronized publish run, the failure is reported (`perror`, an event in
the trace) but is not fatal: no write of the captured output happens, no
reserved-code exit occurs, and the process exits with the child's
normalized status. -/
theorem syncsh_c3_amended (cfg : Config) (o : Oracle)
    (hsync : synchronized cfg = true)
    (hcls : (serClassified cfg o && o.lockSer) = false)
    (ht : o.tmpfilesOk = true) (hv : o.vforkOk = true)
    (hlo : o.lseekOutOk = true) (hle : o.lseekErrOk = true)
    (htp : teePathOk cfg = true) (hlp : o.lockPub = false) :
    Event.lockFailMsg 0 ∈ syncshRun cfg o
    ∧ (syncshRun cfg o).all
        (fun e => !isFatal e && !isOutWrite e && !isErrWrite e && !isTeeWrite e) = true
    ∧ finalExit (syncshRun cfg o) = some (normStatus o.rawStatus) := by
  have hsem := sem_none cfg o hcls
  rw [run_sync cfg o hsync, syncBody_pub_full cfg o hsem ht hv hlo hle htp]
  have hfin : finishEvents cfg o = [Event.lockFailMsg 0, Event.exitCode (normStatus o.rawStatus)] := by
    unfold finishEvents
    rw [hsem, hlp]
    simp
  rw [hfin]
  refine ⟨?_, ?_, ?_⟩
  · simp
  · have h1 : (vbSyncEvents cfg).all
        (fun e => !isFatal e && !isOutWrite e && !isErrWrite e && !isTeeWrite e) = true :=
      vbSync_all cfg _ (fun b => rfl)
    have h2 : (classifyEvents cfg o).all
        (fun e => !isFatal e && !isOutWrite e && !isErrWrite e && !isTeeWrite e) = true :=
      classify_all cfg o _ rfl (fun n => rfl) (fun n => rfl)
    rw [List.all_append, List.all_append, h1, h2]
    rfl
  · simpa using finalExit_exitCode
      ((vbSyncEvents cfg ++ classifyEvents cfg o)
        ++ [Event.spawnChild true, Event.waitChild o.rawStatus, Event.lockFailMsg 0])
      (normStatus o.rawStatus)

/-- C3 amended witness at the concrete lock-failure run. -/
theorem syncsh_c3_amended_witness :
    oNoLock.lockPub = false
    ∧ (Event.lockFailMsg 0 ∈ syncshRun cfgPub oNoLock
       ∧ (syncshRun cfgPub oNoLock).all
           (fun e => !isFatal e && !isOutWrite e && !isErrWrite e && !isTeeWrite e) = true
       ∧ finalExit (syncshRun cfgPub oNoLock) = some (normStatus oNoLock.rawStatus)) :=
  ⟨by decide, syncsh_c3_amended cfgPub oNoLock (by decide) (by decide) (by decide)
    (by decide) (by decide) (by decide) (by decide) (by decide)⟩

/-- C4 counterexample: this invocation has token count 1 (≠ 3), so the
claim demands PASS-THROUGH (an exec of the shell); instead the program
prints its usage message and exits 1: the trace is exactly the usage
exit and contains no exec at all. -/
theorem syncsh_c4_cex :
    cfgNoArgs.argv.length ≠ 3
    ∧ (syncshRun cfgNoArgs oPub).all (fun e => !isExec e) = true
    ∧ syncshRun cfgNoArgs oPub = [Event.usageExit] := by decide

/-- C4 amended: unless the usage guard fires first (no arguments, a literal
`-h`, or an argv[1] containing `help`, which print usage and exit 1), the
run passes through — exec of the configured shell on the original
arguments — exactly when the token count is not 3, or the second token
does not start with a dash or does not contain `c`, or the third token
starts with a dash, or MAKELEVEL is absent; otherwise it synchronizes. -/
theorem syncsh_c4_amended (cfg : Config) (o : Oracle)
    (hu : usageWanted cfg = false) :
    (passThrough cfg = true
      ↔ (cfg.argv.length ≠ 3
         ∨ (argN cfg 1).toList.head? ≠ some '-'
         ∨ (argN cfg 1).toList.contains 'c' = false
         ∨ (argN cfg 2).toList.head? = some '-'
         ∨ cfg.makelevel = none))
    ∧ (passThrough cfg = true → syncshRun cfg o = passEvents cfg o)
    ∧ (passThrough cfg = false → syncshRun cfg o = syncBody cfg o)
    ∧ (passThrough cfg = true → o.execOk = true →
        Event.execShell (shellPath cfg :: cfg.argv.drop 1) ∈ syncshRun cfg o) := by
  refine ⟨?_, ?_, ?_, ?_⟩
  · simp only [passThrough]
    simp
    tauto
  · intro hp
    unfold syncshRun
    rw [hu, hp]
    simp
  · intro hp
    unfold syncshRun
    rw [hu, hp]
    simp
  · intro hp he
    unfold syncshRun
    rw [hu, hp]
    unfold passEvents
    rw [he]
    cases cfg.verbose <;> simp

/-- C4 amended witness: a concrete invocation without MAKELEVEL set
passes through to the shell. -/
theorem syncsh_c4_amended_witness :
    usageWanted cfgNoMake = false
    ∧ passThrough cfgNoMake = true
    ∧ syncshRun cfgNoMake oPub = passEvents cfgNoMake oPub :=
  ⟨by decide, by decide,
    (syncsh_c4_amended cfgNoMake oPub (by decide)).2.1 (by decide)⟩

theorem syncBody_pub_run (cfg : Config) (o : Oracle)
    (hsem : semAfterClassify cfg o = none)
    (ht : o.tmpfilesOk = true) (hv : o.vforkOk = true) :
    ∃ rest, syncBody cfg o = (vbSyncEvents cfg ++ classifyEvents cfg o)
      ++ Event.spawnChild true :: Event.waitChild o.rawStatus :: rest := by
  unfold syncBody
  rw [hsem]
  cases hlo : o.lseekOutOk <;> cases hle : o.lseekErrOk <;> cases htee : cfg.tee <;>
    simp [ht, hv, hlo, hle, htee]
  all_goals
    rename_i t
    cases habs : isAbsolute t <;> simp [habs]

/-- C5: the classification policy of a synchronized run.  No configured
pattern: PUBLISH-ONLY (no class semaphore, no classification output).
Pattern fails to compile: exactly a warning, degradation to PUBLISH-ONLY,
and the child is still spawned (the build is not aborted).  Pattern
compiles but does not match: PUBLISH-ONLY, and the publication lock is
taken at offset 0. -/
theorem syncsh_c5 (cfg : Config) (o : Oracle) (hsync : synchronized cfg = true) :
    (cfg.serialize = none →
      classifyEvents cfg o = [] ∧ semAfterClassify cfg o = none)
    ∧ (∀ pat, cfg.serialize = some pat → o.regcompOk = false →
      classifyEvents cfg o = [Event.warnBadPattern] ∧ semAfterClassify cfg o = none
      ∧ (o.tmpfilesOk = true → o.vforkOk = true →
         Event.spawnChild true ∈ syncshRun cfg o))
    ∧ (∀ pat, cfg.serialize = some pat → o.regcompOk = true → o.regMatch = false →
      classifyEvents cfg o = [] ∧ semAfterClassify cfg o = none
      ∧ (o.tmpfilesOk = true → o.vforkOk = true → o.lseekOutOk = true →
         o.lseekErrOk = true → teePathOk cfg = true → o.lockPub = true →
         Event.acquireLock 0 ∈ syncshRun cfg o)) := by
  refine ⟨?_, ?_, ?_⟩
  · intro hser
    constructor
    · simp [classifyEvents, hser]
    · simp [semAfterClassify, hser]
  · intro pat hser hc
    have hsem : semAfterClassify cfg o = none := by simp [semAfterClassify, hser, hc]
    refine ⟨by simp [classifyEvents, hser, hc], hsem, ?_⟩
    intro ht hv
    obtain ⟨rest, hrun⟩ := syncBody_pub_run cfg o hsem ht hv
    rw [run_sync cfg o hsync, hrun]
    simp
  · intro pat hser hc hm
    have hsem : semAfterClassify cfg o = none := by simp [semAfterClassify, hser, hm]
    refine ⟨by simp [classifyEvents, hser, hc, hm], hsem, ?_⟩
    intro ht hv hlo hle htp hlp
    rw [pub_critical_trace cfg o hsync hsem ht hv hlo hle htp hlp]
    simp

/-- C5 witness: a run whose pattern compiles but does not match the recipe
is published under the offset-0 lock. -/
theorem syncsh_c5_witness :
    synchronized cfgSer = true
    ∧ Event.acquireLock 0 ∈ syncshRun cfgSer { oPub with regMatch := false } :=
  ⟨by decide,
    (((syncsh_c5 cfgSer { oPub with regMatch := false } (by decide)).2.2
        ("D") (by decide) (by decide) (by decide)).2.2
      (by decide) (by decide) (by decide) (by decide) (by decide) (by decide))⟩

theorem str_hash_step_lt (h c : Nat) : str_hash_step h c < 65536 := by
  unfold str_hash_step
  have h1 : (0:Int) ≤ (signedChar c + (h : Int) * 64 + (h:Int) * 65536 - (h:Int)) % 65536 :=
    Int.emod_nonneg _ (by norm_num)
  have h2 : (signedChar c + (h : Int) * 64 + (h:Int) * 65536 - (h:Int)) % 65536 < 65536 :=
    Int.emod_lt_of_pos _ (by norm_num)
  omega

theorem str_hash_fold_lt (l : List Nat) (h : Nat) (hh : h < 65536) :
    str_hash_fold l h < 65536 := by
  induction l generalizing h with
  | nil => simpa [str_hash_fold] using hh
  | cons c cs ih =>
    rw [str_hash_fold]
    exact ih (str_hash_step h c) (str_hash_step_lt h c)

/-- The hash always fits the 16-bit lock-offset width. -/
theorem str_hash_lt (s : String) : str_hash s < 65536 := by
  unfold str_hash
  have := str_hash_fold_lt (strBytes s) 0 (by norm_num)
  have h2 : str_hash_fold (strBytes s) 0 >>> 1 ≤ str_hash_fold (strBytes s) 0 := by
    rw [Nat.shiftRight_eq_div_pow]
    exact Nat.div_le_self _ _
  omega

/-- C6: in any two synchronized SERIALIZE runs configured with the same
pattern string, the class lock is acquired at the same offset — the
deterministic hash of the raw pattern string, independent of the matched
recipe text — and that offset fits the 16-bit lock-offset width. -/
theorem syncsh_c6 (cfg cfg' : Config) (o o' : Oracle) (pat : String)
    (hser : cfg.serialize = some pat) (hser' : cfg'.serialize = some pat)
    (hsync : synchronized cfg = true) (hsync' : synchronized cfg' = true)
    (h1 : serClassified cfg o = true) (h1' : serClassified cfg' o' = true)
    (h2 : o.lockSer = true) (h2' : o'.lockSer = true) :
    Event.acquireLock (str_hash pat) ∈ syncshRun cfg o
    ∧ Event.acquireLock (str_hash pat) ∈ syncshRun cfg' o'
    ∧ str_hash pat < 65536 := by
  refine ⟨?_, ?_, str_hash_lt pat⟩
  · rcases syncBody_ser_shape cfg o pat hser h1 h2 with h | h | h <;>
      rw [run_sync cfg o hsync, h] <;> simp
  · rcases syncBody_ser_shape cfg' o' pat hser' h1' h2' with h | h | h <;>
      rw [run_sync cfg' o' hsync', h] <;> simp

/-- C6 witness: two runs with pattern `D` on different recipes acquire the
same offset. -/
theorem syncsh_c6_witness :
    serClassified cfgSer oPub = true
    ∧ Event.acquireLock (str_hash ("D")) ∈ syncshRun cfgSer oPub :=
  ⟨by decide,
    (syncsh_c6 cfgSer cfgSer oPub oPub ("D") (by decide) (by decide) (by decide)
      (by decide) (by decide) (by decide) (by decide) (by decide)).1⟩

theorem noneBefore_cons_notp (p s : Event → Bool) (e : Event) (t : List Event)
    (hp : p e = false) (ht : noneBefore p s t = true) : noneBefore p s (e :: t) = true := by
  unfold noneBefore
  rw [hp]
  cases hse : s e <;> simp [ht]

/-- The critical-section trace when no tee sink is open. -/
theorem pub_critical_trace_notee (cfg : Config) (o : Oracle)
    (hsync : synchronized cfg = true)
    (hsem : semAfterClassify cfg o = none)
    (ht : o.tmpfilesOk = true) (hv : o.vforkOk = true)
    (hlo : o.lseekOutOk = true) (hle : o.lseekErrOk = true)
    (htp : teePathOk cfg = true) (hlp : o.lockPub = true)
    (hto : teeOk cfg o = false) :
    syncshRun cfg o = (vbSyncEvents cfg ++ classifyEvents cfg o)
      ++ Event.spawnChild true :: Event.waitChild o.rawStatus :: Event.acquireLock 0
      :: (headlineEvents cfg
          ++ Event.outWrite o.childOut :: Event.errWrite o.childErr
          :: [Event.releaseLock 0, Event.exitCode (normStatus o.rawStatus)]) := by
  rw [pub_critical_trace cfg o hsync hsem ht hv hlo hle htp hlp, hto]
  simp

/-- The critical-section trace when a tee sink is open. -/
theorem pub_critical_trace_tee (cfg : Config) (o : Oracle)
    (hsync : synchronized cfg = true)
    (hsem : semAfterClassify cfg o = none)
    (ht : o.tmpfilesOk = true) (hv : o.vforkOk = true)
    (hlo : o.lseekOutOk = true) (hle : o.lseekErrOk = true)
    (htp : teePathOk cfg = true) (hlp : o.lockPub = true)
    (hto : teeOk cfg o = true) :
    syncshRun cfg o = (vbSyncEvents cfg ++ classifyEvents cfg o)
      ++ Event.spawnChild true :: Event.waitChild o.rawStatus :: Event.acquireLock 0
      :: (headlineEvents cfg
          ++ (headlineTeeEvents cfg
              ++ Event.outWrite o.childOut :: Event.teeWrite o.childOut
              :: Event.errWrite o.childErr :: Event.teeWrite o.childErr
              :: [Event.releaseLock 0, Event.exitCode (normStatus o.rawStatus)])) := by
  rw [pub_critical_trace cfg o hsync hsem ht hv hlo hle htp hlp, hto]
  simp

/-- C7: in every publish run that reaches the critical section, the whole
captured stdout block is written to the real stdout — and, when a tee
sink is open, copied to the tee — before any byte of the captured stderr
block is written to the real stderr; both captured blocks occur in the
trace. -/
theorem syncsh_c7 (cfg : Config) (o : Oracle)
    (hsync : synchronized cfg = true)
    (hcls : (serClassified cfg o && o.lockSer) = false)
    (ht : o.tmpfilesOk = true) (hv : o.vforkOk = true)
    (hlo : o.lseekOutOk = true) (hle : o.lseekErrOk = true)
    (htp : teePathOk cfg = true) (hlp : o.lockPub = true) :
    Event.outWrite o.childOut ∈ syncshRun cfg o
    ∧ Event.errWrite o.childErr ∈ syncshRun cfg o
    ∧ noneBefore isErrWrite (isOutOf o.childOut) (syncshRun cfg o) = true
    ∧ (teeOk cfg o = true →
        noneBefore isErrWrite (isTeeOf o.childOut) (syncshRun cfg o) = true) := by
  have hsem := sem_none cfg o hcls
  have hpre : (vbSyncEvents cfg ++ classifyEvents cfg o).all (fun e => !isErrWrite e) = true := by
    rw [List.all_append, vbSync_all cfg _ (fun b => rfl),
        classify_all cfg o _ rfl (fun n => rfl) (fun n => rfl)]
    rfl
  have hhl : (headlineEvents cfg).all (fun e => !isErrWrite e) = true :=
    headline_all cfg _ (fun b => rfl)
  have hhlt : (headlineTeeEvents cfg).all (fun e => !isErrWrite e) = true :=
    headlineTee_all cfg _ (fun b => rfl)
  refine ⟨?_, ?_, ?_, ?_⟩
  · rw [pub_critical_trace cfg o hsync hsem ht hv hlo hle htp hlp]
    simp
  · rw [pub_critical_trace cfg o hsync hsem ht hv hlo hle htp hlp]
    simp
  · cases hto : teeOk cfg o
    · rw [pub_critical_trace_notee cfg o hsync hsem ht hv hlo hle htp hlp hto]
      refine noneBefore_clean_append _ _ _ _ hpre ?_
      refine noneBefore_cons_notp _ _ _ _ rfl ?_
      refine noneBefore_cons_notp _ _ _ _ rfl ?_
      refine noneBefore_cons_notp _ _ _ _ rfl ?_
      refine noneBefore_clean_append _ _ _ _ hhl ?_
      exact noneBefore_stop _ _ _ _ (by simp [isOutOf])
    · rw [pub_critical_trace_tee cfg o hsync hsem ht hv hlo hle htp hlp hto]
      refine noneBefore_clean_append _ _ _ _ hpre ?_
      refine noneBefore_cons_notp _ _ _ _ rfl ?_
      refine noneBefore_cons_notp _ _ _ _ rfl ?_
      refine noneBefore_cons_notp _ _ _ _ rfl ?_
      refine noneBefore_clean_append _ _ _ _ hhl ?_
      refine noneBefore_clean_append _ _ _ _ hhlt ?_
      exact noneBefore_stop _ _ _ _ (by simp [isOutOf])
  · intro hto
    rw [pub_critical_trace_tee cfg o hsync hsem ht hv hlo hle htp hlp hto]
    refine noneBefore_clean_append _ _ _ _ hpre ?_
    refine noneBefore_cons_notp _ _ _ _ rfl ?_
    refine noneBefore_cons_notp _ _ _ _ rfl ?_
    refine noneBefore_cons_notp _ _ _ _ rfl ?_
    refine noneBefore_clean_append _ _ _ _ hhl ?_
    refine noneBefore_clean_append _ _ _ _ hhlt ?_
    refine noneBefore_cons_notp _ _ _ _ rfl ?_
    exact noneBefore_stop _ _ _ _ (by simp [isTeeOf])

/-- C7 witness: the concrete tee-enabled publish run. -/
theorem syncsh_c7_witness :
    teeOk cfgTee oTee = true
    ∧ Event.outWrite oTee.childOut ∈ syncshRun cfgTee oTee
    ∧ noneBefore isErrWrite (isOutOf oTee.childOut) (syncshRun cfgTee oTee) = true :=
  ⟨by decide,
    (syncsh_c7 cfgTee oTee (by decide) (by decide) (by decide) (by decide)
      (by decide) (by decide) (by decide) (by decide)).1,
    (syncsh_c7 cfgTee oTee (by decide) (by decide) (by decide) (by decide)
      (by decide) (by decide) (by decide) (by decide)).2.2.1⟩

/-- C8 counterexample: this synchronized run is classified SERIALIZE and
has a headline configured, yet its trace contains no write to stdout or
to the tee at all — the headline is never emitted on the SERIALIZE path. -/
theorem syncsh_c8_cex :
    synchronized cfgSer = true
    ∧ serClassified cfgSer oPub = true
    ∧ cfgSer.headline = some ("H")
    ∧ (syncshRun cfgSer oPub).all (fun e => !isOutWrite e && !isTeeWrite e) = true := by
  decide

/-- C8 amended: only on the publish path, when the publication lock is
acquired, a configured headline is written — followed by a newline — to
stdout as the first action of the critical section, immediately after the
lock acquisition, and (when a tee sink is open) copied to the tee next;
SERIALIZE runs skip the emitter, headline included. -/
theorem syncsh_c8_amended (cfg : Config) (o : Oracle) (hl : String)
    (hsync : synchronized cfg = true)
    (hcls : (serClassified cfg o && o.lockSer) = false)
    (ht : o.tmpfilesOk = true) (hv : o.vforkOk = true)
    (hlo : o.lseekOutOk = true) (hle : o.lseekErrOk = true)
    (htp : teePathOk cfg = true) (hlp : o.lockPub = true)
    (hhl : cfg.headline = some hl) :
    ∃ a b, syncshRun cfg o
      = a ++ Event.acquireLock 0 :: Event.outWrite (strBytes hl)
        :: Event.outWrite [10] :: b
      ∧ (teeOk cfg o = true →
          ∃ c, b = Event.teeWrite (strBytes hl) :: Event.teeWrite [10] :: c) := by
  have hsem := sem_none cfg o hcls
  rw [pub_critical_trace cfg o hsync hsem ht hv hlo hle htp hlp]
  refine ⟨(vbSyncEvents cfg ++ classifyEvents cfg o)
      ++ [Event.spawnChild true, Event.waitChild o.rawStatus],
    ((if teeOk cfg o then headlineTeeEvents cfg else [])
      ++ Event.outWrite o.childOut
      :: ((if teeOk cfg o then [Event.teeWrite o.childOut] else [])
          ++ Event.errWrite o.childErr
          :: ((if teeOk cfg o then [Event.teeWrite o.childErr] else [])
              ++ [Event.releaseLock 0, Event.exitCode (normStatus o.rawStatus)]))),
    ?_, ?_⟩
  · simp [headlineEvents, hhl]
  · intro hto
    rw [hto]
    exact ⟨Event.outWrite o.childOut :: Event.teeWrite o.childOut
      :: Event.errWrite o.childErr :: Event.teeWrite o.childErr
      :: [Event.releaseLock 0, Event.exitCode (normStatus o.rawStatus)],
      by simp [headlineTeeEvents, hhl]⟩

/-- C8 amended witness at the concrete tee-enabled publish run. -/
theorem syncsh_c8_amended_witness :
    cfgTee.headline = some ("H")
    ∧ ∃ a b, syncshRun cfgTee oTee
        = a ++ Event.acquireLock 0 :: Event.outWrite (strBytes ("H"))
          :: Event.outWrite [10] :: b
        ∧ (teeOk cfgTee oTee = true →
            ∃ c, b = Event.teeWrite (strBytes ("H")) :: Event.teeWrite [10] :: c) :=
  ⟨by decide,
    syncsh_c8_amended cfgTee oTee ("H") (by decide) (by decide) (by decide)
      (by decide) (by decide) (by decide) (by decide) (by decide) (by decide)⟩

/-- C9: the empty pattern string hashes to lock offset 0 — the same byte
the global publication semaphore locks — so a SERIALIZE class configured
with the empty pattern (which matches every recipe) shares its semaphore
byte with the publication lock: this concrete run acquires the class lock
at offset 0. -/
theorem syncsh_c9 :
    str_hash ("") = 0
    ∧ serClassified cfgSerEmpty oPub = true
    ∧ syncshRun cfgSerEmpty oPub
      = [Event.acquireLock 0, Event.spawnChild false, Event.waitChild oPub.rawStatus,
         Event.releaseLock 0, Event.exitCode 42] := by decide

theorem serClassified_some (cfg : Config) (o : Oracle)
    (h : serClassified cfg o = true) : ∃ pat, cfg.serialize = some pat := by
  unfold serClassified at h
  cases hs : cfg.serialize
  · rw [hs] at h
    exact absurd h (by simp)
  · exact ⟨_, rfl⟩

theorem syncBody_ser_run (cfg : Config) (o : Oracle) (pat : String)
    (hser : cfg.serialize = some pat)
    (h1 : serClassified cfg o = true) (h2 : o.lockSer = true)
    (hv : o.vforkOk = true) :
    ∃ rest, syncBody cfg o = vbSyncEvents cfg
      ++ Event.acquireLock (str_hash pat) :: Event.spawnChild false
      :: Event.waitChild o.rawStatus :: rest := by
  have hs := sem_some cfg o pat hser h1 h2
  have hc := classify_ser cfg o pat hser h1 h2
  unfold syncBody
  rw [hs, hc]
  cases htee : cfg.tee <;> simp [hv, htee]
  all_goals
    rename_i t
    cases habs : isAbsolute t <;> simp [habs]

/-- C10: a synchronized SERIALIZE run (class lock acquired) never writes
to the tee, to stdout (so no headline) or to stderr — the whole
critical-section emitter is skipped — and its child is spawned without
capture streams, inheriting the real output descriptors. -/
theorem syncsh_c10 (cfg : Config) (o : Oracle)
    (hsync : synchronized cfg = true)
    (h1 : serClassified cfg o = true) (h2 : o.lockSer = true) :
    (syncshRun cfg o).all (fun e => !isTeeWrite e && !isOutWrite e && !isErrWrite e) = true
    ∧ (o.vforkOk = true → Event.spawnChild false ∈ syncshRun cfg o) := by
  obtain ⟨pat, hser⟩ := serClassified_some cfg o h1
  constructor
  · rcases syncBody_ser_shape cfg o pat hser h1 h2 with h | h | h <;>
      rw [run_sync cfg o hsync, h] <;>
      (rw [List.all_append, List.all_append, vbSync_all cfg _ (fun b => rfl)]; rfl)
  · intro hv
    obtain ⟨rest, hrun⟩ := syncBody_ser_run cfg o pat hser h1 h2 hv
    rw [run_sync cfg o hsync, hrun]
    simp

/-- C10 witness at the concrete SERIALIZE run (which also has a headline
configured that is not emitted). -/
theorem syncsh_c10_witness :
    serClassified cfgSer oPub = true
    ∧ (syncshRun cfgSer oPub).all
        (fun e => !isTeeWrite e && !isOutWrite e && !isErrWrite e) = true :=
  ⟨by decide, (syncsh_c10 cfgSer oPub (by decide) (by decide) (by decide)).1⟩
